import Mathlib

/-!
# Verification of the DMP risk-decision engine core

A shallow embedding of the decision core of the DMP transaction
risk-control system (C++ sources: `src/server/handlers.cpp`,
`src/utils/logger.cpp` (rule engine), `engine/pattern_matcher` and
`common/config.cpp`), together with theorems settling the specified
properties of the decision logic, rule engine, pattern matcher and
configuration store.

Numeric conventions: C++ `float`/`double` score arithmetic is embedded
over `ℚ`; every constant appearing in the modelled code paths (25, 15,
30, 20, 10, thresholds 30/70, clamp bounds 0/100) is exactly
representable in binary floating point and the modelled computations
stay well inside the exact range, so `ℚ` arithmetic agrees with the
source on these paths.  Strings are embedded as Lean `String`s; byte
offsets coincide with character offsets on the ASCII data handled here.
-/

namespace DMP

/-- Decision enum from `common/types.hpp`. -/
inductive Decision where
  | APPROVE
  | DECLINE
  | REVIEW
deriving DecidableEq, Repr

/-- `TransactionInfo` from `core/transaction.hpp` (fields used by the decision core). -/
structure TransactionInfo where
  amount : ℚ
  currency : String
  merchant_id : String
  merchant_category : ℕ
  pos_entry_mode : String
deriving DecidableEq, Repr

/-- `CardInfo` from `core/transaction.hpp`. -/
structure CardInfo where
  token : String
  issuer_country : String
  card_brand : String
deriving DecidableEq, Repr

/-- `DeviceInfo` from `core/transaction.hpp`. -/
structure DeviceInfo where
  ip : String
  fingerprint : String
  user_agent : String
deriving DecidableEq, Repr

/-- `CustomerInfo` from `core/transaction.hpp`. -/
structure CustomerInfo where
  id : String
  risk_score : ℚ
  account_age_days : ℕ
deriving DecidableEq, Repr

/-- `TransactionRequest` from `core/transaction.hpp`. -/
structure TransactionRequest where
  request_id : String
  transaction : TransactionInfo
  card : CardInfo
  device : DeviceInfo
  customer : CustomerInfo
deriving DecidableEq, Repr

/-- `RuleThresholds` from `rule_engine.hpp` (defaults 30 / 70 from the
default constructor). -/
structure RuleThresholds where
  approve_threshold : ℚ := 30
  review_threshold : ℚ := 70
deriving DecidableEq, Repr

/-- `RuleThresholds::make_decision` from `rule_engine.hpp` lines 137-145. -/
def RuleThresholds.make_decision (t : RuleThresholds) (score : ℚ) : Decision :=
  if score < t.approve_threshold then .APPROVE
  else if t.review_threshold ≤ score then .DECLINE
  else .REVIEW

/-- `DecisionHandler::DecisionResult` from `server/handlers.cpp`. -/
structure DecisionResult where
  decision : Decision
  risk_score : ℚ
  triggered_rules : List String
deriving DecidableEq, Repr

/-- `std::clamp(v, lo, hi)`. -/
def stdClamp (v lo hi : ℚ) : ℚ :=
  if v < lo then lo else if hi < v then hi else v

/-- `s.find(p) == 0` — `p` is a prefix of `s` (structural, over the
character lists). -/
def strIsPrefixOf (p s : String) : Bool :=
  p.toList.isPrefixOf s.toList

/-- `s.empty()` (structural, over the character list). -/
def strIsEmpty (s : String) : Bool :=
  s.toList.isEmpty

/-- Rule 1 condition of `process_risk_decision`: high amount. -/
def hitsHighAmount (request : TransactionRequest) : Bool :=
  decide (10000 < request.transaction.amount)

/-- Rule 2 condition: non-major currency. -/
def hitsCurrencyRisk (request : TransactionRequest) : Bool :=
  request.transaction.currency ≠ "USD" && request.transaction.currency ≠ "EUR"

/-- Rule 3 condition: high customer risk score. -/
def hitsCustomerRisk (request : TransactionRequest) : Bool :=
  decide (70 < request.customer.risk_score)

/-- Rule 4 condition: account younger than 30 days. -/
def hitsNewAccount (request : TransactionRequest) : Bool :=
  decide (request.customer.account_age_days < 30)

/-- Rule 5 condition: `ip.find("10.") == 0 || ip.find("192.168.") == 0`. -/
def hitsPrivateIp (request : TransactionRequest) : Bool :=
  strIsPrefixOf "10." request.device.ip || strIsPrefixOf "192.168." request.device.ip

/-- The `high_risk` flag of `process_risk_decision`: set by rules 1
and 3 only. -/
def highRiskFlag (request : TransactionRequest) : Bool :=
  hitsHighAmount request || hitsCustomerRisk request

/-- The rule-based score accumulated by `process_risk_decision` before
the ML-substitute term (increments 25 / 15 / 30 / 20 / 10 in rule
order; addition is commutative so the sequential accumulation equals
this sum). -/
def baseRiskScore (request : TransactionRequest) : ℚ :=
  (if hitsHighAmount request then 25 else 0) +
    (if hitsCurrencyRisk request then 15 else 0) +
    (if hitsCustomerRisk request then 30 else 0) +
    (if hitsNewAccount request then 20 else 0) +
    (if hitsPrivateIp request then 10 else 0)

/-- The `triggered_rules` entries pushed by the five rule checks, in
push order. -/
def baseTriggeredRules (request : TransactionRequest) : List String :=
  (if hitsHighAmount request then ["RULE_HIGH_AMOUNT: Amount exceeds $10,000"] else []) ++
    (if hitsCurrencyRisk request then ["RULE_CURRENCY_RISK: Non-major currency"] else []) ++
    (if hitsCustomerRisk request then ["RULE_CUSTOMER_RISK: High customer risk score"] else []) ++
    (if hitsNewAccount request then ["RULE_NEW_ACCOUNT: Account less than 30 days old"] else []) ++
    (if hitsPrivateIp request then ["RULE_PRIVATE_IP: Private IP address detected"] else [])

/-- `DecisionHandler::process_risk_decision` from `server/handlers.cpp`
lines 125-191.  The C++ code adds a draw `dis(gen)` from a
`std::mt19937` seeded by `std::random_device`, simulating an ML model
output in `[0, 15)`; the draw is passed in explicitly as `ml_score`
(the rest of the function is a pure function of the request). -/
def process_risk_decision (request : TransactionRequest) (ml_score : ℚ) : DecisionResult :=
  let final_score := stdClamp (baseRiskScore request + ml_score) 0 100
  let decision : Decision :=
    if 70 ≤ final_score ∨ highRiskFlag request = true then .DECLINE
    else if 30 ≤ final_score then .REVIEW
    else .APPROVE
  { decision := decision
    risk_score := final_score
    triggered_rules :=
      if (baseTriggeredRules request).isEmpty then
        ["RULE_DEFAULT: Transaction within normal parameters"]
      else baseTriggeredRules request }

/-! ## Rule engine (`rule_engine.hpp` + implementation in `logger.cpp`) -/

/-- `RuleContext` from `rule_engine.hpp` lines 301-345. -/
structure RuleContext where
  amount : ℚ
  currency : String
  merchant_id : String
  merchant_category : ℕ
  pos_entry_mode : String
  card_token : String
  issuer_country : String
  card_brand : String
  ip_address : String
  device_fingerprint : String
  user_agent : String
  customer_id : String
  customer_risk_score : ℚ
  account_age_days : ℕ
  merchant_risk : ℚ
  hourly_count : ℕ
  amount_sum : ℚ
  ip_blacklist_match : ℤ
deriving DecidableEq, Repr

/-- `RuleContext::from_transaction` (rule-engine implementation, lines
577-610): copies the request fields and sets every derived field to its
default; in particular `ip_blacklist_match = 0` unconditionally. -/
def RuleContext.from_transaction (request : TransactionRequest) : RuleContext :=
  { amount := request.transaction.amount
    currency := request.transaction.currency
    merchant_id := request.transaction.merchant_id
    merchant_category := request.transaction.merchant_category
    pos_entry_mode := request.transaction.pos_entry_mode
    card_token := request.card.token
    issuer_country := request.card.issuer_country
    card_brand := request.card.card_brand
    ip_address := request.device.ip
    device_fingerprint := request.device.fingerprint
    user_agent := request.device.user_agent
    customer_id := request.customer.id
    customer_risk_score := request.customer.risk_score
    account_age_days := request.customer.account_age_days
    merchant_risk := 0
    hourly_count := 1
    amount_sum := request.transaction.amount
    ip_blacklist_match := 0 }

/-- `RuleContext::is_valid` (rule-engine implementation, lines 612-615). -/
def RuleContext.is_valid (ctx : RuleContext) : Bool :=
  !strIsEmpty ctx.customer_id && !strIsEmpty ctx.merchant_id &&
    !strIsEmpty ctx.currency && decide (0 < ctx.amount)

/-- The numeric variables bound into the thread-local ExprTk symbol
table by `RuleEngine::Impl::initialize_symbol_table` (lines 471-507).
`ip_blacklist_match` is bound through the ternary
`context.ip_blacklist_match ? 1.0 : 0.0`. -/
def symNumVar (ctx : RuleContext) : String → Option ℚ
  | "amount" => some ctx.amount
  | "merchant_category" => some (ctx.merchant_category : ℚ)
  | "customer_risk_score" => some ctx.customer_risk_score
  | "account_age_days" => some (ctx.account_age_days : ℚ)
  | "merchant_risk" => some ctx.merchant_risk
  | "hourly_count" => some (ctx.hourly_count : ℚ)
  | "amount_sum" => some ctx.amount_sum
  | "ip_blacklist_match" => some (if ctx.ip_blacklist_match ≠ 0 then 1 else 0)
  | _ => none

/-- The string variables bound by `initialize_symbol_table` via
`add_stringvar`. -/
def symStrVar (ctx : RuleContext) : String → Option String
  | "currency" => some ctx.currency
  | "merchant_id" => some ctx.merchant_id
  | "pos_entry_mode" => some ctx.pos_entry_mode
  | "card_token" => some ctx.card_token
  | "issuer_country" => some ctx.issuer_country
  | "card_brand" => some ctx.card_brand
  | "ip_address" => some ctx.ip_address
  | "device_fingerprint" => some ctx.device_fingerprint
  | "user_agent" => some ctx.user_agent
  | "customer_id" => some ctx.customer_id
  | _ => none

/-- Whether a name is one of the numeric symbol-table variables. -/
def isNumVarName (s : String) : Bool :=
  s = "amount" || s = "merchant_category" || s = "customer_risk_score" ||
    s = "account_age_days" || s = "merchant_risk" || s = "hourly_count" ||
    s = "amount_sum" || s = "ip_blacklist_match"

/-- Operand of a compiled comparison expression. -/
inductive Operand where
  | var (name : String)
  | lit (q : ℚ)
deriving DecidableEq, Repr

/-- Comparison operator of a compiled expression. -/
inductive CmpOp where
  | lt
  | gt
  | le
  | ge
deriving DecidableEq, Repr

/-- A compiled rule expression.  ExprTk is an external library; the
rule expressions exercised by this development are numeric comparisons
`<operand> <op> <operand>` over the symbol-table variables, and this
models ExprTk's compilation of exactly that fragment (a boolean
comparison evaluates to 1.0 when true and 0.0 when false, matching the
engine's `result > 0.5` trigger test). -/
structure CompiledExpr where
  lhs : Operand
  op : CmpOp
  rhs : Operand
deriving DecidableEq, Repr

/-- Digit-run value (structural). -/
def digitsOnlyVal (cs : List Char) : Option ℕ :=
  if !cs.isEmpty && cs.all (·.isDigit) then
    some (cs.foldl (fun n c => 10 * n + (c.toNat - 48)) 0)
  else none

/-- Split a string at every space character (structural; models
tokenising a `<operand> <op> <operand>` expression). -/
def splitOnSpaceAux : List Char → List Char → List String
  | [], acc => [String.mk acc.reverse]
  | c :: cs, acc =>
    if c = ' ' then String.mk acc.reverse :: splitOnSpaceAux cs []
    else splitOnSpaceAux cs (c :: acc)

/-- Split a string on spaces. -/
def splitOnSpace (s : String) : List String :=
  splitOnSpaceAux s.toList []

/-- Parse a numeric literal the way ExprTk reads an integer literal. -/
def parseNumLit (s : String) : Option ℚ :=
  match s.toList with
  | '-' :: ds => (digitsOnlyVal ds).map fun n => -(n : ℚ)
  | ds => (digitsOnlyVal ds).map fun n => (n : ℚ)

/-- Resolve an operand token at compile time: a known symbol-table
variable name compiles to a variable reference, otherwise it must be a
numeric literal (ExprTk rejects unknown symbols at compile time). -/
def parseOperand (s : String) : Option Operand :=
  if isNumVarName s then some (.var s) else (parseNumLit s).map .lit

/-- Model of `RuleEngine::Impl::compile_rule` (ExprTk
`parser.compile`) on the comparison fragment: returns `none` exactly
when compilation fails, in which case the engine skips the rule. -/
def compileExprTk (s : String) : Option CompiledExpr :=
  match splitOnSpace s with
  | [a, o, b] =>
    match parseOperand a, parseOperand b with
    | some x, some y =>
      match o with
      | "<" => some ⟨x, .lt, y⟩
      | ">" => some ⟨x, .gt, y⟩
      | "<=" => some ⟨x, .le, y⟩
      | ">=" => some ⟨x, .ge, y⟩
      | _ => none
    | _, _ => none
  | _ => none

/-- Evaluate an operand against the symbol table built from a
`RuleContext`. -/
def Operand.eval (ctx : RuleContext) : Operand → ℚ
  | .var n => (symNumVar ctx n).getD 0
  | .lit q => q

/-- Evaluate a compiled expression (`expression->value()`): comparisons
yield 1.0 / 0.0. -/
def CompiledExpr.value (c : CompiledExpr) (ctx : RuleContext) : ℚ :=
  let x := c.lhs.eval ctx
  let y := c.rhs.eval ctx
  match c.op with
  | .lt => if x < y then 1 else 0
  | .gt => if y < x then 1 else 0
  | .le => if x ≤ y then 1 else 0
  | .ge => if y ≤ x then 1 else 0

/-- `Rule` from `rule_engine.hpp` (statistics fields omitted; no
modelled claim reads them). -/
structure EngineRule where
  id : String
  name : String
  expression : String
  weight : ℚ
  enabled : Bool
  description : String
deriving DecidableEq, Repr

/-- `RuleConfig` from `rule_engine.hpp`. -/
structure RuleConfig where
  version : String
  rules : List EngineRule
  thresholds : RuleThresholds
deriving DecidableEq, Repr

/-- `RuleConfig::get_enabled_rules`. -/
def RuleConfig.get_enabled_rules (c : RuleConfig) : List EngineRule :=
  c.rules.filter (·.enabled)

/-- `RuleResult` from `rule_engine.hpp` (timing field omitted). -/
structure RuleResult where
  rule_id : String
  triggered : Bool
  contribution_score : ℚ
deriving DecidableEq, Repr

/-- `RuleEvaluationMetrics` from `rule_engine.hpp` (wall-clock fields
omitted). -/
structure RuleEvaluationMetrics where
  rule_results : List RuleResult
  total_score : ℚ
  rules_triggered : ℕ
  rules_evaluated : ℕ
deriving DecidableEq, Repr

/-- `RuleEvaluationMetrics metrics = {}` — the zero-initialised metrics
returned on the early-exit paths of `evaluate_rules`. -/
def emptyMetrics : RuleEvaluationMetrics :=
  { rule_results := [], total_score := 0, rules_triggered := 0, rules_evaluated := 0 }

/-- One worker thread's `tl_compiled_rules`: rule id paired with the
expression text it was compiled from (compilation is a pure function of
the text, so caching the source text is extensionally the cached
compiled object). -/
abbrev CompiledCache := List (String × String)

/-- The rule engine state visible to the modelled claims: `initialized_`
(`initFlag`), `current_config_`, and the per-worker thread-local
compiled caches. -/
structure EngineState where
  initFlag : Bool
  config : RuleConfig
  caches : ℕ → CompiledCache

/-- Loop body of `RuleEngine::evaluate_rules` (lines 692-750) for one
enabled rule: look the rule id up in the thread-local cache, compile on
miss (skipping the rule if compilation fails), evaluate, and trigger on
`result > 0.5`.  The accumulator carries the worker's cache, the result
list, `total_score` and `rules_triggered`. -/
def evalRuleStep (ctx : RuleContext)
    (acc : CompiledCache × List RuleResult × ℚ × ℕ) (rule : EngineRule) :
    CompiledCache × List RuleResult × ℚ × ℕ :=
  let (cache, results, total, ntrig) := acc
  let compiled? :=
    match cache.lookup rule.id with
    | some text => (compileExprTk text).map fun c => (cache, c)
    | none =>
      (compileExprTk rule.expression).map fun c =>
        (cache ++ [(rule.id, rule.expression)], c)
  match compiled? with
  | none => (cache, results, total, ntrig)
  | some (cache', c) =>
    let result := c.value ctx
    let triggered := decide ((1 : ℚ)/2 < result)
    let rr : RuleResult :=
      { rule_id := rule.id, triggered := triggered,
        contribution_score := if triggered then rule.weight else 0 }
    ( cache', results ++ [rr],
      (if triggered then total + rule.weight else total),
      (if triggered then ntrig + 1 else ntrig) )

/-- `RuleEngine::evaluate_rules` (lines 660-759): early-exit with
zero-initialised metrics when the engine is not initialised or the
derived context is invalid; otherwise evaluate the enabled rules in
order using (and extending) the calling worker's thread-local cache. -/
def evaluate_rules (st : EngineState) (worker : ℕ) (request : TransactionRequest) :
    RuleEvaluationMetrics × EngineState :=
  if st.initFlag = false then (emptyMetrics, st)
  else
    let context := RuleContext.from_transaction request
    if context.is_valid = false then (emptyMetrics, st)
    else
      let enabled := st.config.get_enabled_rules
      let start : CompiledCache × List RuleResult × ℚ × ℕ := (st.caches worker, [], 0, 0)
      let step := enabled.foldl (evalRuleStep context) start
      ( { rule_results := step.2.1, total_score := step.2.2.1,
          rules_triggered := step.2.2.2, rules_evaluated := enabled.length },
        { st with caches := fun w => if w = worker then step.1 else st.caches w } )

/-- The configuration-swap step of
`RuleEngine::Impl::load_rules_from_file` (lines 437-460): replace
`current_config_`, then `tl_compiled_rules.clear()` — which clears only
the **calling** thread's thread-local cache, leaving every other
worker's cache untouched. -/
def install_rule_config (st : EngineState) (caller : ℕ) (new_config : RuleConfig) :
    EngineState :=
  { initFlag := true
    config := new_config
    caches := fun w => if w = caller then [] else st.caches w }

/-! ## Rule configuration loading (`load_rules_from_file`, lines 326-469)

File IO and JSON text parsing (simdjson) are outside the embedding; the
model starts from the parsed document. -/

/-- Parsed JSON document (the simdjson DOM shape used by the loader). -/
inductive Json where
  | null
  | bool (b : Bool)
  | num (q : ℚ)
  | str (s : String)
  | arr (elems : List Json)
  | obj (fields : List (String × Json))

/-- `doc[key]` on a JSON object. -/
def Json.getField : Json → String → Option Json
  | .obj fields, k => fields.lookup k
  | _, _ => none

/-- `doc[key].get_string()` — succeeds only on a string field. -/
def Json.getStr (j : Json) (k : String) : Option String :=
  match j.getField k with
  | some (.str s) => some s
  | _ => none

/-- `doc[key].get_double()` — succeeds on a numeric field. -/
def Json.getNum (j : Json) (k : String) : Option ℚ :=
  match j.getField k with
  | some (.num q) => some q
  | _ => none

/-- `doc[key].get_bool()`. -/
def Json.getBool (j : Json) (k : String) : Option Bool :=
  match j.getField k with
  | some (.bool b) => some b
  | _ => none

/-- `doc[key].get_array()`. -/
def Json.getArr (j : Json) (k : String) : Option (List Json) :=
  match j.getField k with
  | some (.arr xs) => some xs
  | _ => none

/-- The per-element rule parsing of `load_rules_from_file` (lines
386-431): a rule element without a string `id` or without a string
`expression` is skipped; `weight` defaults to 1.0, `enabled` to true. -/
def parseRuleFromJson (j : Json) : Option EngineRule :=
  match j.getStr "id" with
  | none => none
  | some rid =>
    match j.getStr "expression" with
    | none => none
    | some expr =>
      some { id := rid
             name := (j.getStr "name").getD ""
             expression := expr
             weight := (j.getNum "weight").getD 1
             enabled := (j.getBool "enabled").getD true
             description := (j.getStr "description").getD "" }

/-- `std::sort` by weight descending (lines 433-435). -/
def sortByWeightDesc (rules : List EngineRule) : List EngineRule :=
  rules.insertionSort fun a b => b.weight ≤ a.weight

/-- The document-to-configuration step of `load_rules_from_file` (lines
354-436): version defaults to "1.0.0"; each threshold field overrides
the default-constructed `RuleThresholds` (30 / 70) only when present as
a number; a missing `rules` array is the only rejection.  **No
validation of the threshold values is performed.** -/
def parse_rule_config (doc : Json) : Except String RuleConfig :=
  let version := (doc.getStr "version").getD "1.0.0"
  let thresholds : RuleThresholds :=
    match doc.getField "thresholds" with
    | none => {}
    | some t =>
      { approve_threshold := (Json.getNum t "approve_threshold").getD 30
        review_threshold := (Json.getNum t "review_threshold").getD 70 }
  match doc.getArr "rules" with
  | none => .error "Missing or invalid rules array"
  | some rulesArr =>
    .ok { version := version
          rules := sortByWeightDesc (rulesArr.filterMap parseRuleFromJson)
          thresholds := thresholds }

/-! ## Pattern matcher (`engine/pattern_matcher.hpp` + implementation) -/

/-- `Pattern` from `pattern_matcher.hpp`. -/
structure Pattern where
  id : ℕ
  name : String
  pattern : String
  category : String
  is_regex : Bool
  case_sensitive : Bool
  priority : ℕ
deriving DecidableEq, Repr

/-- Whitespace set of the trimming in `parse_pattern_file` (`" \t\r\n"`). -/
def isWsChar (c : Char) : Bool :=
  c = ' ' || c = '\t' || c = '\r' || c = '\n'

/-- The two `erase` calls of `parse_pattern_file` (lines 739-740): trim
leading and trailing whitespace. -/
def trimLine (s : String) : String :=
  String.mk (((s.toList.dropWhile isWsChar).reverse.dropWhile isWsChar).reverse)

/-- Value of the leading digit run, if any (for `std::stoi`). -/
def digitsPrefixVal (cs : List Char) : Option ℕ :=
  let ds := cs.takeWhile (·.isDigit)
  if ds.isEmpty then none
  else some (ds.foldl (fun n c => 10 * n + (c.toNat - 48)) 0)

/-- `std::stoi`: skip leading spaces, optional sign, then a non-empty
digit run (further characters ignored); no digits throws, which the
caller turns into an error. -/
def stoiModel (s : String) : Option ℤ :=
  match s.toList.dropWhile (· = ' ') with
  | '-' :: rest => (digitsPrefixVal rest).map fun n => -(n : ℤ)
  | '+' :: rest => (digitsPrefixVal rest).map fun n => (n : ℤ)
  | cs => (digitsPrefixVal cs).map fun n => (n : ℤ)

/-- Index of the first occurrence of `c` (`std::string::find`). -/
def firstIdxOf (s : String) (c : Char) : Option ℕ :=
  s.toList.findIdx? (· = c)

/-- Index of the last occurrence of `c` (`std::string::find_last_of`). -/
def lastIdxOf (s : String) (c : Char) : Option ℕ :=
  (s.toList.findIdx? (· = c)).bind fun _ =>
    some ((s.toList.length - 1) - ((s.toList.reverse.findIdx? (· = c)).getD 0))

/-- Index of the second occurrence of `c`
(`ip_part.find('.', ip_part.find('.') + 1)`; absent when there are
fewer than two occurrences). -/
def secondIdxOf (s : String) (c : Char) : Option ℕ :=
  match s.toList.findIdx? (· = c) with
  | none => none
  | some i =>
    ((s.toList.drop (i + 1)).findIdx? (· = c)).map fun j => i + 1 + j

/-- `substr(0, n)`. -/
def takeStr (s : String) (n : ℕ) : String :=
  String.mk (s.toList.take n)

/-- `std::replace(prefix.begin(), prefix.end(), '.', '\\')` — replaces
each dot character by a single backslash **character** (not by the
two-character escape `\.`). -/
def replaceDotWithBackslash (s : String) : String :=
  String.mk (s.toList.map fun c => if c = '.' then '\\' else c)

/-- `PatternUtils::cidr_to_regex` (pattern matcher implementation,
lines 826-881), translated literally including the dot-replacement
step. -/
def cidr_to_regex (cidr_pattern : String) : Except String String :=
  match firstIdxOf cidr_pattern '/' with
  | none => .error ("Invalid CIDR notation: " ++ cidr_pattern)
  | some slash_pos =>
    let ip_part := takeStr cidr_pattern slash_pos
    let prefix_part := String.mk (cidr_pattern.toList.drop (slash_pos + 1))
    match stoiModel prefix_part with
    | none => .error ("Exception parsing CIDR " ++ cidr_pattern)
    | some prefix_length =>
      if prefix_length < 0 ∨ 32 < prefix_length then
        .error ("Invalid CIDR prefix length: " ++ toString prefix_length)
      else
        let body :=
          if 24 ≤ prefix_length then
            match lastIdxOf ip_part '.' with
            | some last_dot =>
              replaceDotWithBackslash (takeStr ip_part last_dot) ++ "\\.\\d\x7b1,3\x7d"
            | none => ""
          else if 16 ≤ prefix_length then
            match secondIdxOf ip_part '.' with
            | some second_dot =>
              replaceDotWithBackslash (takeStr ip_part second_dot) ++
                "\\.\\d\x7b1,3\x7d\\.\\d\x7b1,3\x7d"
            | none => ""
          else
            match firstIdxOf ip_part '.' with
            | some first_dot =>
              takeStr ip_part first_dot ++
                "\\.\\d\x7b1,3\x7d\\.\\d\x7b1,3\x7d\\.\\d\x7b1,3\x7d"
            | none => ""
        .ok ("^" ++ body ++ "$")

/-- One pattern record as built by the loop body of
`PatternUtils::parse_pattern_file` (lines 747-775) for a surviving
(trimmed, non-comment) line. -/
def classifyLine (category : String) (pid : ℕ) (line : String) : Pattern :=
  let base : Pattern :=
    { id := pid, name := category ++ "_" ++ toString pid, pattern := line,
      category := category, is_regex := false, case_sensitive := true, priority := 10 }
  if line.toList.contains '/' ∧ (line.toList.contains '.' ∨ line.toList.contains ':') then
    match cidr_to_regex line with
    | .ok rx =>
      { base with pattern := rx, is_regex := true,
                  name := category ++ "_cidr_" ++ toString pid }
    | .error _ => base
  else if line.toList.contains '*' then
    { base with name := category ++ "_wildcard_" ++ toString pid }
  else
    { base with name := category ++ "_exact_" ++ toString pid }

/-- `PatternUtils::parse_pattern_file` on the lines of one file:
trim, skip empty and `#`-comment lines, and number the surviving
patterns sequentially **starting from 1 for this file**. -/
def parse_pattern_file (lines : List String) (category : String) : List Pattern :=
  (lines.foldl (fun (acc : ℕ × List Pattern) raw =>
      let line := trimLine raw
      if line.isEmpty || line.toList.head? = some '#' then acc
      else (acc.1 + 1, acc.2 ++ [classifyLine category acc.1 line]))
    (1, [])).2

/-- `PatternMatcher::Impl::load_patterns` (lines 482-518): parse the
blacklist file, then the whitelist file, and concatenate. -/
def load_patterns (blacklist_lines whitelist_lines : List String) : List Pattern :=
  parse_pattern_file blacklist_lines "blacklist" ++
    parse_pattern_file whitelist_lines "whitelist"

/-! ### `StdRegexBackend` matching model

Exact (non-wildcard) patterns are handed to `std::regex` **verbatim**
(`CompiledPattern` constructor, lines 51-65: only wildcard patterns go
through `wildcard_to_regex`).  The embedding models the ECMAScript
semantics of the fragment the exercised patterns fall in: literal
characters plus the `.` metacharacter (any character).  `regex_search`
returns the leftmost match. -/

/-- Regex token: a literal character or `.` (any character). -/
inductive RTok where
  | lit (c : Char)
  | anyc
deriving DecidableEq, Repr

/-- ECMAScript reading of a pattern string on the literal-and-dot
fragment. -/
def ecmaTokens (p : String) : List RTok :=
  p.toList.map fun c => if c = '.' then .anyc else .lit c

/-- Token-vs-character test. -/
def RTok.matchesChar : RTok → Char → Bool
  | .lit a, c => a = c
  | .anyc, _ => true

/-- Do the tokens match a prefix of the text? -/
def tokensMatchStart : List RTok → List Char → Bool
  | [], _ => true
  | _ :: _, [] => false
  | t :: ts, c :: cs => t.matchesChar c && tokensMatchStart ts cs

/-- Leftmost match of a fixed-length token list (`std::regex_search`):
returns the match position and length. -/
def regexSearchFrom (toks : List RTok) : List Char → ℕ → Option (ℕ × ℕ)
  | [], i => if toks.isEmpty then some (i, 0) else none
  | c :: rest, i =>
    if tokensMatchStart toks (c :: rest) then some (i, toks.length)
    else regexSearchFrom toks rest (i + 1)

/-- `PatternMatch` from `pattern_matcher.hpp`. -/
structure PatternMatch where
  pattern_id : ℕ
  pattern_name : String
  matched_text : String
  start_offset : ℕ
  end_offset : ℕ
  category : String
deriving DecidableEq, Repr

/-- `PatternMatchResults` (timing omitted).  The C++ field `matches` is
rendered `all_matches` (`matches` is reserved in Lean). -/
structure PatternMatchResults where
  all_matches : List PatternMatch
  blacklist_matches : List PatternMatch
  whitelist_matches : List PatternMatch
  texts_processed : ℕ
  patterns_checked : ℕ
deriving DecidableEq, Repr

/-- `s.find(sub) != npos`. -/
def strContains (s sub : String) : Bool :=
  (List.range (s.toList.length + 1)).any fun i => sub.toList.isPrefixOf (s.toList.drop i)

/-- Compiled token list of a pattern as `StdRegexBackend` builds it for
the non-wildcard patterns exercised here (the pattern text is passed to
`std::regex` verbatim). -/
def compiledTokens (p : Pattern) : List RTok :=
  ecmaTokens p.pattern

/-- The `PatternMatch` record built for a `regex_search` hit at
`[pos, pos + len)` (`match.str()` is the matched slice of the text). -/
def foundMatch (cs : List Char) (p : Pattern) (pos len : ℕ) : PatternMatch :=
  { pattern_id := p.id, pattern_name := p.name,
    matched_text := String.mk ((cs.drop pos).take len),
    start_offset := pos, end_offset := pos + len, category := p.category }

/-- Loop body of `StdRegexBackend::match_text` for one compiled
pattern: category filter, `regex_search`, then record and categorise
the hit. -/
def matchTextStep (cs : List Char) (category : String)
    (acc : PatternMatchResults) (p : Pattern) : PatternMatchResults :=
  if category ≠ "" ∧ p.category ≠ category then acc
  else
    match regexSearchFrom (compiledTokens p) cs 0 with
    | none => acc
    | some (pos, len) =>
      let m := foundMatch cs p pos len
      { acc with
        all_matches := acc.all_matches ++ [m]
        blacklist_matches :=
          if strContains p.category "blacklist" then acc.blacklist_matches ++ [m]
          else acc.blacklist_matches
        whitelist_matches :=
          if ¬ strContains p.category "blacklist" ∧ strContains p.category "whitelist" then
            acc.whitelist_matches ++ [m]
          else acc.whitelist_matches }

/-- `StdRegexBackend::match_text` (lines 100-159): for each compiled
pattern (subject to the category filter), `regex_search` the text; a
hit contributes a `PatternMatch` carrying `match.str()` and
`[position, position + length)`, categorised by whether the pattern's
category contains "blacklist" / "whitelist". -/
def match_text (patterns : List Pattern) (text : String) (category : String) :
    PatternMatchResults :=
  patterns.foldl (matchTextStep text.toList category)
    { all_matches := [], blacklist_matches := [], whitelist_matches := [],
      texts_processed := 1, patterns_checked := patterns.length }

/-! ## Configuration store (`common/config.cpp`)

The section structs are declared in `common/config.hpp`, which is not
among the provided sources; their field sets and types are reconstructed
from the accesses in `config.cpp`, and the default-constructed section
values (header member initialisers) are passed in explicitly as a
`SystemConfigDefaults` record.  File IO and TOML text parsing are
outside the embedding; the model starts from the parsed table. -/

/-- Parsed TOML value. -/
inductive TomlVal where
  | int (i : ℤ)
  | flt (q : ℚ)
  | str (s : String)
  | boolean (b : Bool)
  | table (kvs : List (String × TomlVal))

/-- A parsed TOML table. -/
abbrev TomlTable := List (String × TomlVal)

/-- `table[key].as_table()`. -/
def tomlSub (t : TomlTable) (k : String) : Option TomlTable :=
  match t.lookup k with
  | some (.table kvs) => some kvs
  | _ => none

/-- `extract_integer` helper (`config.cpp` lines 17-22). -/
def extract_integer (t : TomlTable) (k : String) (dflt : ℤ) : ℤ :=
  match t.lookup k with
  | some (.int i) => i
  | _ => dflt

/-- `extract_string` helper. -/
def extract_string (t : TomlTable) (k : String) (dflt : String) : String :=
  match t.lookup k with
  | some (.str s) => s
  | _ => dflt

/-- `extract_bool` helper. -/
def extract_bool (t : TomlTable) (k : String) (dflt : Bool) : Bool :=
  match t.lookup k with
  | some (.boolean b) => b
  | _ => dflt

/-- `extract_double` helper (toml++ widens integers to double). -/
def extract_double (t : TomlTable) (k : String) (dflt : ℚ) : ℚ :=
  match t.lookup k with
  | some (.flt q) => q
  | some (.int i) => (i : ℚ)
  | _ => dflt

/-- `is_valid_port` (`config.cpp` lines 58-60). -/
def is_valid_port (p : ℤ) : Bool :=
  0 < p && p ≤ 65535

/-- `is_valid_log_level` (`config.cpp` lines 65-70). -/
def is_valid_log_level (level : String) : Bool :=
  level = "trace" || level = "debug" || level = "info" || level = "warn" ||
    level = "error" || level = "critical" || level = "off"

/-- `ServerConfig` (fields per the accesses in `config.cpp`). -/
structure ServerConfig where
  host : String
  port : ℤ
  threads : ℤ
  keep_alive_timeout : ℤ
  max_connections : ℤ
  target_p99_ms : ℚ
  target_qps : ℤ
  max_memory_gb : ℤ
  max_cpu_percent : ℤ
deriving DecidableEq, Repr

/-- `ServerConfig::is_valid` (lines 112-122). -/
def ServerConfig.is_valid (c : ServerConfig) : Bool :=
  !c.host.isEmpty && is_valid_port c.port &&
    0 < c.threads && c.threads ≤ 64 &&
    0 < c.keep_alive_timeout && c.keep_alive_timeout ≤ 3600 &&
    0 < c.max_connections && c.max_connections ≤ 100000 &&
    decide (0 < c.target_p99_ms) && decide (c.target_p99_ms ≤ 10000) &&
    0 < c.target_qps && c.target_qps ≤ 1000000 &&
    0 < c.max_memory_gb && c.max_memory_gb ≤ 128 &&
    0 < c.max_cpu_percent && c.max_cpu_percent ≤ 100

/-- `ServerConfig::from_toml` (lines 74-110): start from the
default-constructed value, override from the `server` and `performance`
sections, then validate. -/
def ServerConfig.from_toml (dflt : ServerConfig) (t : TomlTable) : Except String ServerConfig :=
  let c :=
    match tomlSub t "server" with
    | none => dflt
    | some st =>
      { dflt with
        host := extract_string st "host" dflt.host
        port := extract_integer st "port" dflt.port
        threads := extract_integer st "threads" dflt.threads
        keep_alive_timeout := extract_integer st "keep_alive_timeout" dflt.keep_alive_timeout
        max_connections := extract_integer st "max_connections" dflt.max_connections }
  let c :=
    match tomlSub t "performance" with
    | none => c
    | some pt =>
      { c with
        target_p99_ms := extract_double pt "target_p99_ms" c.target_p99_ms
        target_qps := extract_integer pt "target_qps" c.target_qps
        max_memory_gb := extract_integer pt "max_memory_gb" c.max_memory_gb
        max_cpu_percent := extract_integer pt "max_cpu_percent" c.max_cpu_percent }
  if c.is_valid then .ok c else .error "Invalid server configuration values"

/-- `FeatureConfig` (fields per the accesses in `config.cpp`). -/
structure FeatureConfig where
  enable_cache : Bool
  cache_size_mb : ℤ
  cache_ttl_seconds : ℤ
  l1_size_mb : ℤ
  l1_ttl_seconds : ℤ
  l2_size_mb : ℤ
  l2_ttl_seconds : ℤ
  l3_size_mb : ℤ
  l3_ttl_seconds : ℤ
  enable_redis : Bool
  redis_host : String
  redis_port : ℤ
deriving DecidableEq, Repr

/-- `FeatureConfig::is_valid` (lines 179-189). -/
def FeatureConfig.is_valid (c : FeatureConfig) : Bool :=
  0 < c.cache_size_mb && c.cache_size_mb ≤ 16384 &&
    0 < c.cache_ttl_seconds && c.cache_ttl_seconds ≤ 86400 &&
    0 < c.l1_size_mb && c.l1_size_mb ≤ 1024 &&
    0 < c.l1_ttl_seconds && c.l1_ttl_seconds ≤ 3600 &&
    0 < c.l2_size_mb && c.l2_size_mb ≤ 4096 &&
    0 < c.l2_ttl_seconds && c.l2_ttl_seconds ≤ 7200 &&
    0 < c.l3_size_mb && c.l3_size_mb ≤ 32768 &&
    0 < c.l3_ttl_seconds && c.l3_ttl_seconds ≤ 86400 &&
    (!c.enable_redis || is_valid_port c.redis_port)

/-- `FeatureConfig::from_toml` (lines 125-177). -/
def FeatureConfig.from_toml (dflt : FeatureConfig) (t : TomlTable) : Except String FeatureConfig :=
  let c :=
    match tomlSub t "features" with
    | none => dflt
    | some ft =>
      { dflt with
        enable_cache := extract_bool ft "enable_cache" dflt.enable_cache
        cache_size_mb := extract_integer ft "cache_size_mb" dflt.cache_size_mb
        cache_ttl_seconds := extract_integer ft "cache_ttl_seconds" dflt.cache_ttl_seconds }
  let c :=
    match (tomlSub t "cache_config").bind (fun ct => tomlSub ct "levels") with
    | none => c
    | some levels =>
      let c :=
        match tomlSub levels "l1_thread_local" with
        | none => c
        | some l1 =>
          { c with
            l1_size_mb := extract_integer l1 "size_mb" c.l1_size_mb
            l1_ttl_seconds := extract_integer l1 "ttl_seconds" c.l1_ttl_seconds }
      let c :=
        match tomlSub levels "l2_process_shared" with
        | none => c
        | some l2 =>
          { c with
            l2_size_mb := extract_integer l2 "size_mb" c.l2_size_mb
            l2_ttl_seconds := extract_integer l2 "ttl_seconds" c.l2_ttl_seconds }
      match tomlSub levels "l3_redis" with
      | none => c
      | some l3 =>
        { c with
          l3_size_mb := extract_integer l3 "size_mb" c.l3_size_mb
          l3_ttl_seconds := extract_integer l3 "ttl_seconds" c.l3_ttl_seconds
          redis_host := extract_string l3 "host" c.redis_host
          redis_port := extract_integer l3 "port" c.redis_port
          enable_redis := true }
  if c.is_valid then .ok c else .error "Invalid feature configuration values"

/-- `LoggingConfig` (fields per the accesses in `config.cpp`). -/
structure LoggingConfig where
  level : String
  file_path : String
  max_size_mb : ℤ
  max_files : ℤ
  enable_console : Bool
  enable_file : Bool
deriving DecidableEq, Repr

/-- `LoggingConfig::is_valid` (lines 217-222). -/
def LoggingConfig.is_valid (c : LoggingConfig) : Bool :=
  is_valid_log_level c.level && !c.file_path.isEmpty &&
    0 < c.max_size_mb && c.max_size_mb ≤ 1024 &&
    0 < c.max_files && c.max_files ≤ 100

/-- `LoggingConfig::from_toml` (lines 192-215). -/
def LoggingConfig.from_toml (dflt : LoggingConfig) (t : TomlTable) : Except String LoggingConfig :=
  let c :=
    match tomlSub t "logging" with
    | none => dflt
    | some lt =>
      { dflt with
        level := extract_string lt "level" dflt.level
        file_path := extract_string lt "file" dflt.file_path
        max_size_mb := extract_integer lt "max_size_mb" dflt.max_size_mb
        max_files := extract_integer lt "max_files" dflt.max_files
        enable_console := extract_bool lt "enable_console" dflt.enable_console
        enable_file := extract_bool lt "enable_file" dflt.enable_file }
  if c.is_valid then .ok c else .error "Invalid logging configuration values"

/-- `MonitoringConfig` (fields per the accesses in `config.cpp`). -/
structure MonitoringConfig where
  enable_prometheus : Bool
  prometheus_port : ℤ
  metrics_interval_seconds : ℤ
  metrics_path : String
deriving DecidableEq, Repr

/-- `MonitoringConfig::is_valid` (lines 252-256). -/
def MonitoringConfig.is_valid (c : MonitoringConfig) : Bool :=
  is_valid_port c.prometheus_port &&
    0 < c.metrics_interval_seconds && c.metrics_interval_seconds ≤ 3600 &&
    !c.metrics_path.isEmpty && c.metrics_path.toList.head? = some '/'

/-- `MonitoringConfig::from_toml` (lines 225-250). -/
def MonitoringConfig.from_toml (dflt : MonitoringConfig) (t : TomlTable) : Except String MonitoringConfig :=
  let c :=
    match tomlSub t "monitoring" with
    | none => dflt
    | some mt =>
      { dflt with
        enable_prometheus := extract_bool mt "enable_prometheus" dflt.enable_prometheus
        prometheus_port := extract_integer mt "prometheus_port" dflt.prometheus_port
        metrics_interval_seconds :=
          extract_integer mt "metrics_interval_seconds" dflt.metrics_interval_seconds
        metrics_path := extract_string mt "metrics_path" dflt.metrics_path }
  if c.is_valid then .ok c else .error "Invalid monitoring configuration values"

/-- The default-constructed section values (member initialisers in the
header `common/config.hpp`, which is not among the provided sources). -/
structure SystemConfigDefaults where
  server : ServerConfig
  feature : FeatureConfig
  logging : LoggingConfig
  monitoring : MonitoringConfig
deriving DecidableEq, Repr

/-- The mutable section members of `SystemConfig`. -/
structure SystemConfigState where
  server_config_ : ServerConfig
  feature_config_ : FeatureConfig
  logging_config_ : LoggingConfig
  monitoring_config_ : MonitoringConfig
deriving DecidableEq, Repr

/-- `SystemConfig::load_from_toml` (lines 448-478): the four sections
are parsed, validated and **assigned one at a time in order** (server,
feature, logging, monitoring); the first failure returns an error,
leaving the sections already assigned in their new state and the rest
in their old state. -/
def SystemConfig.load_from_toml (d : SystemConfigDefaults) (st : SystemConfigState)
    (t : TomlTable) : Except String Unit × SystemConfigState :=
  match ServerConfig.from_toml d.server t with
  | .error e => (.error ("Server config: " ++ e), st)
  | .ok sc =>
    let st := { st with server_config_ := sc }
    match FeatureConfig.from_toml d.feature t with
    | .error e => (.error ("Feature config: " ++ e), st)
    | .ok fc =>
      let st := { st with feature_config_ := fc }
      match LoggingConfig.from_toml d.logging t with
      | .error e => (.error ("Logging config: " ++ e), st)
      | .ok lc =>
        let st := { st with logging_config_ := lc }
        match MonitoringConfig.from_toml d.monitoring t with
        | .error e => (.error ("Monitoring config: " ++ e), st)
        | .ok mc => (.ok (), { st with monitoring_config_ := mc })

/-- `SystemConfig::reload` (lines 368-408) after the file has been
read: a text that fails TOML parsing (`doc = none`) errors without
touching the state; otherwise `load_from_toml` runs on the live state
under the writer lock. -/
def SystemConfig.reload (d : SystemConfigDefaults) (st : SystemConfigState)
    (doc : Option TomlTable) : Except String Unit × SystemConfigState :=
  match doc with
  | none => (.error "TOML parsing failed", st)
  | some t => SystemConfig.load_from_toml d st t

/-- `SystemConfig::get_server_config`. -/
def SystemConfig.get_server_config (st : SystemConfigState) : ServerConfig :=
  st.server_config_

/-- `SystemConfig::get_feature_config`. -/
def SystemConfig.get_feature_config (st : SystemConfigState) : FeatureConfig :=
  st.feature_config_

/-- `SystemConfig::get_logging_config`. -/
def SystemConfig.get_logging_config (st : SystemConfigState) : LoggingConfig :=
  st.logging_config_

/-- `SystemConfig::get_monitoring_config`. -/
def SystemConfig.get_monitoring_config (st : SystemConfigState) : MonitoringConfig :=
  st.monitoring_config_

/-! ## Concrete fixtures for witnesses and counterexamples -/

/-- A benign sample request (amount 100 USD, established low-risk
customer, public IP). -/
def reqLowRisk : TransactionRequest :=
  { request_id := "req-001"
    transaction := { amount := 100, currency := "USD", merchant_id := "M001",
                     merchant_category := 5411, pos_entry_mode := "CHIP" }
    card := { token := "tok-1", issuer_country := "US", card_brand := "VISA" }
    device := { ip := "8.8.8.8", fingerprint := "fp-1", user_agent := "ua-1" }
    customer := { id := "C001", risk_score := 25, account_age_days := 365 } }

/-- A request whose customer risk score exceeds 70. -/
def reqHighCustomerRisk : TransactionRequest :=
  { reqLowRisk with
    request_id := "req-002"
    transaction := { reqLowRisk.transaction with amount := 200 }
    customer := { reqLowRisk.customer with risk_score := 85 } }

/-- A request hitting only the new-account rule (base score 20). -/
def reqNewAccount : TransactionRequest :=
  { reqLowRisk with
    request_id := "req-003"
    transaction := { reqLowRisk.transaction with amount := 500 }
    customer := { id := "C003", risk_score := 40, account_age_days := 10 } }

/-- A valid request whose device IP appears on the blacklist fixture. -/
def reqBlkIp : TransactionRequest :=
  { reqLowRisk with
    request_id := "req-004"
    device := { reqLowRisk.device with ip := "9.9.9.9" } }

/-- A request with an empty customer id (context not evaluable). -/
def reqNoCustomer : TransactionRequest :=
  { reqLowRisk with
    request_id := "req-006"
    customer := { reqLowRisk.customer with id := "" } }

/-- Mid-amount request used by the rule-engine cache scenario. -/
def reqMidAmount : TransactionRequest :=
  { reqLowRisk with
    request_id := "req-005"
    transaction := { reqLowRisk.transaction with amount := 500 } }

/-- Rule configuration A: `r1` fires for amounts above 100. -/
def cfgA : RuleConfig :=
  { version := "1.0"
    rules := [{ id := "r1", name := "High amount", expression := "amount > 100",
                weight := 10, enabled := true, description := "" }]
    thresholds := {} }

/-- Rule configuration B: same rule id `r1`, different expression text
(fires only above 1000000). -/
def cfgB : RuleConfig :=
  { version := "2.0"
    rules := [{ id := "r1", name := "High amount", expression := "amount > 1000000",
                weight := 10, enabled := true, description := "" }]
    thresholds := {} }

/-- Rule configuration with the blacklist-flag rule shipped in the
repository's `rules.json` (`init_project.sh`): `ip_blacklist_match > 0`. -/
def cfgIpRule : RuleConfig :=
  { version := "1.0"
    rules := [{ id := "ip_rule", name := "IP blacklist", expression := "ip_blacklist_match > 0",
                weight := 50, enabled := true, description := "" }]
    thresholds := {} }

/-- Fresh (never-loaded) engine state. -/
def engineStart : EngineState :=
  { initFlag := false
    config := { version := "", rules := [], thresholds := {} }
    caches := fun _ => [] }

/-- Engine after the hot-reload thread (worker 1) installed `cfgA`. -/
def engineA : EngineState := install_rule_config engineStart 1 cfgA

/-- Engine after worker 0 evaluated once under `cfgA` (its thread-local
cache now holds `r1` compiled from "amount > 100"). -/
def engineA0 : EngineState := (evaluate_rules engineA 0 reqMidAmount).2

/-- Engine after the hot-reload thread (worker 1) reloaded to `cfgB`:
only worker 1's thread-local cache was cleared. -/
def engineB : EngineState := install_rule_config engineA0 1 cfgB

/-- Engine with the `ip_blacklist_match > 0` rule installed. -/
def engineIpRule : EngineState := install_rule_config engineStart 1 cfgIpRule

/-- Blacklist pattern set containing the device IP of `reqBlkIp`. -/
def ipBlkDB : List Pattern := load_patterns ["9.9.9.9"] []

/-- Pattern set with a single exact pattern containing a `.`
metacharacter (a typical IP blacklist entry). -/
def dotDB : List Pattern := load_patterns ["1.2"] []

/-- Pattern set with a single metacharacter-free exact pattern. -/
def abcDB : List Pattern := load_patterns ["abc"] []

/-- The single pattern of `abcDB`. -/
def abcPattern : Pattern := classifyLine "blacklist" 1 "abc"

/-- ECMAScript regex metacharacters. -/
def ecmaMetaChars : List Char :=
  ['.', '*', '+', '?', '(', ')', '[', ']', '\x7b', '\x7d', '|', '^', '$', '\\']

/-- Rule-file document whose thresholds violate the documented
invariant (`approve_threshold` 150, `review_threshold` 10). -/
def badThresholdDoc : Json :=
  .obj [("version", .str "2.0"), ("rules", .arr []),
        ("thresholds", .obj [("approve_threshold", .num 150),
                             ("review_threshold", .num 10)])]

/-- Rule-file document with given threshold values and rule elements. -/
def mkRuleDoc (q r : ℚ) (rulesArr : List Json) : Json :=
  .obj [("version", .str "1.0"), ("rules", .arr rulesArr),
        ("thresholds", .obj [("approve_threshold", .num q),
                             ("review_threshold", .num r)])]

/-- All-zero default-constructed sections (stand-in values for the
header initialisers; the C3 scenario documents specify every field they
rely on, so these defaults are never read there). -/
def zeroDefaults : SystemConfigDefaults :=
  { server := { host := "", port := 0, threads := 0, keep_alive_timeout := 0,
                max_connections := 0, target_p99_ms := 0, target_qps := 0,
                max_memory_gb := 0, max_cpu_percent := 0 }
    feature := { enable_cache := false, cache_size_mb := 0, cache_ttl_seconds := 0,
                 l1_size_mb := 0, l1_ttl_seconds := 0, l2_size_mb := 0,
                 l2_ttl_seconds := 0, l3_size_mb := 0, l3_ttl_seconds := 0,
                 enable_redis := false, redis_host := "", redis_port := 0 }
    logging := { level := "", file_path := "", max_size_mb := 0, max_files := 0,
                 enable_console := false, enable_file := false }
    monitoring := { enable_prometheus := false, prometheus_port := 0,
                    metrics_interval_seconds := 0, metrics_path := "" } }

/-- Initial (pre-load) section state. -/
def zeroState : SystemConfigState :=
  { server_config_ := zeroDefaults.server
    feature_config_ := zeroDefaults.feature
    logging_config_ := zeroDefaults.logging
    monitoring_config_ := zeroDefaults.monitoring }

/-- A complete valid system configuration document. -/
def docValid : TomlTable :=
  [("server", .table [("host", .str "localhost"), ("port", .int 8080),
                      ("threads", .int 4), ("keep_alive_timeout", .int 60),
                      ("max_connections", .int 1000)]),
   ("performance", .table [("target_p99_ms", .flt 50), ("target_qps", .int 10000),
                           ("max_memory_gb", .int 8), ("max_cpu_percent", .int 80)]),
   ("features", .table [("enable_cache", .boolean true), ("cache_size_mb", .int 512),
                        ("cache_ttl_seconds", .int 300)]),
   ("cache_config", .table [("levels", .table
      [("l1_thread_local", .table [("size_mb", .int 64), ("ttl_seconds", .int 60)]),
       ("l2_process_shared", .table [("size_mb", .int 1024), ("ttl_seconds", .int 600)]),
       ("l3_redis", .table [("size_mb", .int 4096), ("ttl_seconds", .int 3600),
                            ("host", .str "localhost"), ("port", .int 6379)])])]),
   ("logging", .table [("level", .str "info"), ("file", .str "logs/dmp.log"),
                       ("max_size_mb", .int 100), ("max_files", .int 10),
                       ("enable_console", .boolean true), ("enable_file", .boolean true)]),
   ("monitoring", .table [("enable_prometheus", .boolean true),
                          ("prometheus_port", .int 9090),
                          ("metrics_interval_seconds", .int 60),
                          ("metrics_path", .str "/metrics")])]

/-- A reload document with a valid, different server section (new host)
and an invalid features section (`cache_size_mb = 0`). -/
def docPartial : TomlTable :=
  [("server", .table [("host", .str "replacement-host"), ("port", .int 8080),
                      ("threads", .int 4), ("keep_alive_timeout", .int 60),
                      ("max_connections", .int 1000)]),
   ("performance", .table [("target_p99_ms", .flt 50), ("target_qps", .int 10000),
                           ("max_memory_gb", .int 8), ("max_cpu_percent", .int 80)]),
   ("features", .table [("enable_cache", .boolean true), ("cache_size_mb", .int 0),
                        ("cache_ttl_seconds", .int 300)]),
   ("cache_config", .table [("levels", .table
      [("l1_thread_local", .table [("size_mb", .int 64), ("ttl_seconds", .int 60)]),
       ("l2_process_shared", .table [("size_mb", .int 1024), ("ttl_seconds", .int 600)]),
       ("l3_redis", .table [("size_mb", .int 4096), ("ttl_seconds", .int 3600),
                            ("host", .str "localhost"), ("port", .int 6379)])])]),
   ("logging", .table [("level", .str "info"), ("file", .str "logs/dmp.log"),
                       ("max_size_mb", .int 100), ("max_files", .int 10),
                       ("enable_console", .boolean true), ("enable_file", .boolean true)]),
   ("monitoring", .table [("enable_prometheus", .boolean true),
                          ("prometheus_port", .int 9090),
                          ("metrics_interval_seconds", .int 60),
                          ("metrics_path", .str "/metrics")])]

/-- The active configuration after loading `docValid`. -/
def loadedState : SystemConfigState :=
  (SystemConfig.load_from_toml zeroDefaults zeroState docValid).2

/-! ## Theorems -/

/-- Unfolding lemma: the handler's decision and score fields. -/
theorem handler_decision_eq (request : TransactionRequest) (ml : ℚ) :
    (process_risk_decision request ml).decision =
      (if 70 ≤ stdClamp (baseRiskScore request + ml) 0 100 ∨ highRiskFlag request = true
       then Decision.DECLINE
       else if 30 ≤ stdClamp (baseRiskScore request + ml) 0 100 then Decision.REVIEW
       else Decision.APPROVE) ∧
    (process_risk_decision request ml).risk_score =
      stdClamp (baseRiskScore request + ml) 0 100 :=
  ⟨rfl, rfl⟩

/-- C1: For every computed risk score `s`, the decision is APPROVE when
`s` is strictly below the configured `approve_threshold`, DECLINE when
`s ≥ review_threshold`, and REVIEW otherwise (under the documented
threshold invariant `approve ≤ review`); and in the decision handler —
whose thresholds are the defaults 30 / 70 — any request with customer
risk score above 70 or amount above 10 000 is DECLINEd regardless of
where its score falls. -/
theorem decision_threshold_contract :
    (∀ (t : RuleThresholds) (s : ℚ), t.approve_threshold ≤ t.review_threshold →
      (s < t.approve_threshold → t.make_decision s = .APPROVE) ∧
      (t.review_threshold ≤ s → t.make_decision s = .DECLINE) ∧
      (t.approve_threshold ≤ s → s < t.review_threshold → t.make_decision s = .REVIEW)) ∧
    (∀ (request : TransactionRequest) (ml : ℚ),
      ((70 < request.customer.risk_score ∨ 10000 < request.transaction.amount) →
        (process_risk_decision request ml).decision = .DECLINE) ∧
      (¬(70 < request.customer.risk_score ∨ 10000 < request.transaction.amount) →
        ((process_risk_decision request ml).risk_score < 30 →
          (process_risk_decision request ml).decision = .APPROVE) ∧
        (70 ≤ (process_risk_decision request ml).risk_score →
          (process_risk_decision request ml).decision = .DECLINE) ∧
        (30 ≤ (process_risk_decision request ml).risk_score →
          (process_risk_decision request ml).risk_score < 70 →
          (process_risk_decision request ml).decision = .REVIEW))) := by
  constructor
  · intro t s hle
    refine ⟨?_, ?_, ?_⟩ <;> intros <;>
      simp only [RuleThresholds.make_decision] <;>
      split_ifs <;> first | rfl | linarith
  · intro request ml
    obtain ⟨hdec, hscore⟩ := handler_decision_eq request ml
    constructor
    · intro h
      have hflag : highRiskFlag request = true := by
        rcases h with h | h
        · simp [highRiskFlag, hitsCustomerRisk, h]
        · simp [highRiskFlag, hitsHighAmount, h]
      rw [hdec, hflag]
      simp
    · intro h
      push_neg at h
      have hflag : highRiskFlag request = false := by
        simp only [highRiskFlag, hitsHighAmount, hitsCustomerRisk,
          Bool.or_eq_false_iff, decide_eq_false_iff_not, not_lt]
        exact ⟨h.2, h.1⟩
      rw [hflag] at hdec
      simp only [Bool.false_eq_true, or_false] at hdec
      rw [hscore, hdec]
      refine ⟨?_, ?_, ?_⟩ <;> intros <;> split_ifs <;>
        first | rfl | linarith

/-- Witness for C1: a score of 10 under the default thresholds is
approved, and a request with customer risk 85 is declined. -/
theorem decision_threshold_contract_witness :
    RuleThresholds.make_decision ⟨30, 70⟩ 10 = .APPROVE ∧
    (process_risk_decision reqHighCustomerRisk 0).decision = .DECLINE :=
  ⟨(decision_threshold_contract.1 ⟨30, 70⟩ 10 (by norm_num)).1 (by norm_num),
   (decision_threshold_contract.2 reqHighCustomerRisk 0).1 (Or.inl (by decide))⟩

/-- C9 counterexample: two runs of the decision computation on the same
request and the same (default) configuration — differing only in the
value drawn from the handler's `std::mt19937`-backed ML-substitute term,
both draws lying in the generator's `[0, 15)` range — produce different
risk scores (20 vs 34) and different decisions (APPROVE vs REVIEW). -/
theorem process_decision_determinism_counterexample :
    (0 : ℚ) ≤ 0 ∧ (0 : ℚ) < 15 ∧ (0 : ℚ) ≤ 14 ∧ (14 : ℚ) < 15 ∧
    (process_risk_decision reqNewAccount 0).risk_score ≠
      (process_risk_decision reqNewAccount 14).risk_score ∧
    (process_risk_decision reqNewAccount 0).decision ≠
      (process_risk_decision reqNewAccount 14).decision :=
  of_decide_eq_true (by with_unfolding_all rfl)

/-- C9 (amended): on a fixed request and fixed configuration the
decision computation is deterministic up to the stochastic
ML-substitute draw: the `triggered_rules` list is identical across runs
regardless of the draws, and runs that receive the same draw agree on
decision, risk score and triggered rules. -/
theorem process_decision_determinism_amended :
    ∀ (request : TransactionRequest) (mlA mlB : ℚ),
      (process_risk_decision request mlA).triggered_rules =
        (process_risk_decision request mlB).triggered_rules ∧
      (mlA = mlB →
        process_risk_decision request mlA = process_risk_decision request mlB) := by
  intro request mlA mlB
  exact ⟨rfl, fun h => by rw [h]⟩

/-- Witness for C9 (amended) at concrete draws. -/
theorem process_decision_determinism_amended_witness :
    (process_risk_decision reqNewAccount 3).triggered_rules =
      (process_risk_decision reqNewAccount 7).triggered_rules ∧
    process_risk_decision reqNewAccount 5 = process_risk_decision reqNewAccount 5 :=
  ⟨(process_decision_determinism_amended reqNewAccount 3 7).1,
   (process_decision_determinism_amended reqNewAccount 5 5).2 rfl⟩

/-- C10: calling `evaluate_rules` before rules are loaded, or on a
request whose derived context is not evaluable (empty customer id,
merchant id or currency, or non-positive amount), returns the
zero-initialised metrics — no rule results, `total_score` 0,
`rules_triggered` 0, `rules_evaluated` 0 — rather than an error (the
function is total in the embedding, as in the source). -/
theorem evaluate_rules_early_exit :
    ∀ (st : EngineState) (worker : ℕ) (request : TransactionRequest),
      (st.initFlag = false ∨ request.customer.id = "" ∨
        request.transaction.merchant_id = "" ∨ request.transaction.currency = "" ∨
        ¬(0 < request.transaction.amount)) →
      (evaluate_rules st worker request).1 = emptyMetrics ∧
      emptyMetrics = { rule_results := [], total_score := 0,
                       rules_triggered := 0, rules_evaluated := 0 } := by
  intro st worker request h
  refine ⟨?_, rfl⟩
  unfold evaluate_rules
  by_cases hinit : st.initFlag = false
  · simp [hinit]
  · have hval : (RuleContext.from_transaction request).is_valid = false := by
      rcases h with h | h | h | h | h
      · exact absurd h hinit
      · simp [RuleContext.is_valid, RuleContext.from_transaction, h,
          show strIsEmpty "" = true from rfl]
      · simp [RuleContext.is_valid, RuleContext.from_transaction, h,
          show strIsEmpty "" = true from rfl]
      · simp [RuleContext.is_valid, RuleContext.from_transaction, h,
          show strIsEmpty "" = true from rfl]
      · simp [RuleContext.is_valid, RuleContext.from_transaction, h]
    simp [hinit, hval]

/-- Witness for C10: an engine with no rules loaded, and an initialised
engine given a request with an empty customer id. -/
theorem evaluate_rules_early_exit_witness :
    (evaluate_rules engineStart 0 reqLowRisk).1 = emptyMetrics ∧
    (evaluate_rules engineA 0 reqNoCustomer).1 = emptyMetrics :=
  ⟨(evaluate_rules_early_exit engineStart 0 reqLowRisk (Or.inl rfl)).1,
   (evaluate_rules_early_exit engineA 0 reqNoCustomer (Or.inr (Or.inl rfl))).1⟩

/-- C2 counterexample: the device IP of `reqBlkIp` produces a blacklist
hit in the pattern matcher, yet the rule-evaluation context built for
that request binds `ip_blacklist_match` to 0 (its default), and an
engine carrying the repository's `ip_blacklist_match > 0` rule does not
trigger it. -/
theorem ip_blacklist_binding_counterexample :
    (match_text ipBlkDB reqBlkIp.device.ip "").blacklist_matches ≠ [] ∧
    (RuleContext.from_transaction reqBlkIp).ip_blacklist_match = 0 ∧
    symNumVar (RuleContext.from_transaction reqBlkIp) "ip_blacklist_match" = some 0 ∧
    (evaluate_rules engineIpRule 0 reqBlkIp).1.rules_triggered = 0 :=
  of_decide_eq_true (by with_unfolding_all rfl)

/-- C2 (amended): for every request — with or without a blacklist hit
on its IP — the rule-evaluation context binds `ip_blacklist_match` to
its default 0: `from_transaction` sets the field to 0 unconditionally
and no implemented component ever sets it to 1. -/
theorem ip_blacklist_binding_amended :
    ∀ request : TransactionRequest,
      (RuleContext.from_transaction request).ip_blacklist_match = 0 ∧
      symNumVar (RuleContext.from_transaction request) "ip_blacklist_match" = some 0 := by
  intro request
  exact ⟨rfl, rfl⟩

/-- C4: after the hot-reload thread (worker 1) successfully installs a
new configuration whose rule `r1` has a different expression text,
worker 0 — which had compiled `r1` under the previous configuration —
still evaluates its stale cached compiled expression (`amount > 100`,
triggering on a 500 amount), while a fresh worker compiling from the
active configuration (`amount > 1000000`) does not trigger. -/
theorem stale_worker_cache_after_reload :
    engineB.config = cfgB ∧
    (evaluate_rules engineB 0 reqMidAmount).1.rule_results =
      [{ rule_id := "r1", triggered := true, contribution_score := 10 }] ∧
    (evaluate_rules engineB 2 reqMidAmount).1.rule_results =
      [{ rule_id := "r1", triggered := false, contribution_score := 0 }] :=
  of_decide_eq_true (by with_unfolding_all rfl)

/-- C5 counterexample: a rule file whose thresholds are 150 / 10 —
violating both `approve < review` and the `[0,100]` range — is accepted
verbatim by the loader as the active configuration. -/
theorem load_rules_threshold_counterexample :
    (parse_rule_config badThresholdDoc).toOption =
      some { version := "2.0", rules := [],
             thresholds := { approve_threshold := 150, review_threshold := 10 } } ∧
    ¬((150 : ℚ) < 10) ∧ ¬((150 : ℚ) ≤ 100) := by
  decide

/-- C5 (amended): `load_rules` performs no validation of the threshold
values: any numeric `approve_threshold` / `review_threshold` pair in
the document is accepted verbatim into the active configuration; only
the default-constructed thresholds (used when the fields are absent)
satisfy `approve < review` with both in `[0,100]`. -/
theorem load_rules_thresholds_unvalidated_amended :
    ∀ (q r : ℚ) (rulesArr : List Json),
      (parse_rule_config (mkRuleDoc q r rulesArr)).toOption.map (·.thresholds) =
        some ⟨q, r⟩ ∧
      ({} : RuleThresholds).approve_threshold < ({} : RuleThresholds).review_threshold ∧
      (0 : ℚ) ≤ ({} : RuleThresholds).approve_threshold ∧
      ({} : RuleThresholds).review_threshold ≤ 100 := by
  intro q r rulesArr
  exact ⟨rfl, by norm_num, by norm_num, by norm_num⟩

/-- C6: loading a blacklist file and a whitelist file with one pattern
each yields an active pattern set whose two (distinct) patterns share
pattern id 1 — `parse_pattern_file` restarts its id counter at 1 for
every file, so ids are not pairwise distinct across the combined set. -/
theorem pattern_id_collision :
    (load_patterns ["1.2.3.4"] ["9.9.9.9"]).map (·.id) = [1, 1] ∧
    (load_patterns ["1.2.3.4"] ["9.9.9.9"])[0]? ≠
      (load_patterns ["1.2.3.4"] ["9.9.9.9"])[1]? := by
  decide

/-- C7: `cidr_to_regex "192.168.1.0/24"` replaces the dots of the base
prefix by bare backslash characters instead of escaping them, producing
`^192\168\1\.\d\x7b1,3\x7d$` (in which `\168` is an ECMAScript
backreference, not the text `168`) rather than the intended
`^192\.168\.1\.\d\x7b1,3\x7d$`; prefix lengths outside `[0,32]` are
rejected as the claim states. -/
theorem cidr_to_regex_escaping_bug :
    (cidr_to_regex "192.168.1.0/24").toOption = some "^192\\168\\1\\.\\d\x7b1,3\x7d$" ∧
    "^192\\168\\1\\.\\d\x7b1,3\x7d$" ≠ "^192\\.168\\.1\\.\\d\x7b1,3\x7d$" ∧
    (cidr_to_regex "10.0.0.0/33").toOption = none ∧
    (cidr_to_regex "10.0.0.0/-1").toOption = none := by
  decide

/-- Helper: on a dot-free pattern the ECMAScript reading is all
literal tokens. -/
theorem ecmaTokens_eq_map_lit (p : String) (h : ∀ c ∈ p.toList, c ≠ '.') :
    ecmaTokens p = p.toList.map RTok.lit := by
  unfold ecmaTokens
  exact List.map_congr_left fun c hc => by simp [h c hc]

/-- Helper: all-literal tokens match a prefix exactly when the pattern
characters are a prefix. -/
theorem tokensMatchStart_lit (ws : List Char) :
    ∀ cs : List Char, tokensMatchStart (ws.map RTok.lit) cs = ws.isPrefixOf cs := by
  induction ws with
  | nil => intro cs; cases cs <;> rfl
  | cons w ws ih =>
    intro cs
    cases cs with
    | nil => rfl
    | cons c cs =>
      by_cases h : w = c <;>
        simp [tokensMatchStart, RTok.matchesChar, List.isPrefixOf, ih, h]

/-- Helper: if the tokens match somewhere in the text, the leftmost
search finds a match position. -/
theorem regexSearchFrom_found (toks : List RTok) :
    ∀ (cs : List Char) (i k : ℕ), tokensMatchStart toks (cs.drop k) = true →
      ∃ j, regexSearchFrom toks cs i = some (i + j, toks.length) ∧
        tokensMatchStart toks (cs.drop j) = true := by
  intro cs
  induction cs with
  | nil =>
    intro i k h
    rw [List.drop_nil] at h
    cases toks with
    | nil => exact ⟨0, by simp [regexSearchFrom], by simpa using h⟩
    | cons t ts => simp [tokensMatchStart] at h
  | cons c rest ih =>
    intro i k h
    by_cases h0 : tokensMatchStart toks (c :: rest) = true
    · exact ⟨0, by simp [regexSearchFrom, h0], by simpa using h0⟩
    · cases k with
      | zero => rw [List.drop_zero] at h; exact absurd h h0
      | succ k' =>
        have h' : tokensMatchStart toks (rest.drop k') = true := by
          simpa using h
        obtain ⟨j', hj', hm⟩ := ih (i + 1) k' h'
        refine ⟨j' + 1, ?_, by simpa using hm⟩
        rw [show regexSearchFrom toks (c :: rest) i = regexSearchFrom toks rest (i + 1) by
          simp [regexSearchFrom, h0], hj']
        congr 2
        omega

/-- Helper: one matcher loop step only appends to `all_matches`. -/
theorem matchTextStep_all_matches (cs : List Char) (category : String)
    (acc : PatternMatchResults) (p : Pattern) :
    ∃ e, (matchTextStep cs category acc p).all_matches = acc.all_matches ++ e := by
  unfold matchTextStep
  by_cases hc : category ≠ "" ∧ p.category ≠ category
  · exact ⟨[], by simp [hc]⟩
  · cases hs : regexSearchFrom (compiledTokens p) cs 0 with
    | none => exact ⟨[], by simp [hc, hs]⟩
    | some pl =>
      exact ⟨[foundMatch cs p pl.1 pl.2], by simp [hc, hs]⟩

/-- Helper: the matcher fold only appends to `all_matches`. -/
theorem matchText_foldl_mono (cs : List Char) (category : String) :
    ∀ (ps : List Pattern) (acc : PatternMatchResults),
      ∃ tail, (ps.foldl (matchTextStep cs category) acc).all_matches =
        acc.all_matches ++ tail := by
  intro ps
  induction ps with
  | nil => exact fun acc => ⟨[], by simp⟩
  | cons p ps ih =>
    intro acc
    obtain ⟨e, he⟩ := matchTextStep_all_matches cs category acc p
    obtain ⟨t, ht⟩ := ih (matchTextStep cs category acc p)
    exact ⟨e ++ t, by simp [List.foldl_cons, ht, he]⟩

/-- C8 counterexample: the exact (non-wildcard, non-CIDR) pattern
`1.2` occurs literally in the text `1x2 1.2`, but because exact
patterns are handed to `std::regex` unescaped, `.` acts as a
metacharacter and the single reported match is `1x2` at offsets
`[0,3)` — no match has `matched_text` equal to the pattern. -/
theorem exact_pattern_match_counterexample :
    strContains "1x2 1.2" "1.2" = true ∧
    (match_text dotDB "1x2 1.2" "").all_matches.map
        (fun m => (m.pattern_id, m.matched_text, m.start_offset, m.end_offset)) =
      [(1, "1x2", 0, 3)] ∧
    (∀ m ∈ (match_text dotDB "1x2 1.2" "").all_matches, ¬(m.matched_text = "1.2")) := by
  decide

/-- C8 (amended): for any text and any compiled exact (non-wildcard,
non-CIDR, case-sensitive) pattern whose text contains **no regex
metacharacters**, if the pattern occurs literally as a substring of the
text then `match_text` reports a match for that pattern whose
`matched_text` equals the pattern and whose byte offsets delimit that
substring. -/
theorem exact_pattern_match_amended :
    ∀ (db : List Pattern) (p : Pattern) (text : String),
      p ∈ db → p.is_regex = false → p.case_sensitive = true →
      (∀ c ∈ p.pattern.toList, c ∉ ecmaMetaChars) →
      strContains text p.pattern = true →
      ∃ m ∈ (match_text db text "").all_matches,
        m.pattern_id = p.id ∧ m.matched_text = p.pattern ∧
        String.mk ((text.toList.drop m.start_offset).take
          (m.end_offset - m.start_offset)) = p.pattern := by
  intro db p text hmem hreg hcase hmeta hocc
  obtain ⟨l₁, l₂, rfl⟩ := List.append_of_mem hmem
  have hdot : ∀ c ∈ p.pattern.toList, c ≠ '.' := by
    intro c hc hcontra
    exact hmeta c hc (by rw [hcontra]; decide)
  have htoks : compiledTokens p = p.pattern.toList.map RTok.lit := by
    unfold compiledTokens
    exact ecmaTokens_eq_map_lit p.pattern hdot
  have hlen : (compiledTokens p).length = p.pattern.toList.length := by
    rw [htoks, List.length_map]
  obtain ⟨k, hk⟩ : ∃ k, p.pattern.toList.isPrefixOf (text.toList.drop k) = true := by
    unfold strContains at hocc
    rw [List.any_eq_true] at hocc
    obtain ⟨i, _, hp⟩ := hocc
    exact ⟨i, hp⟩
  have hk' : tokensMatchStart (compiledTokens p) (text.toList.drop k) = true := by
    rw [htoks, tokensMatchStart_lit]
    exact hk
  obtain ⟨j, hsearch, hmatch⟩ :=
    regexSearchFrom_found (compiledTokens p) text.toList 0 k hk'
  rw [zero_add] at hsearch
  have hpfx : p.pattern.toList.isPrefixOf (text.toList.drop j) = true := by
    rw [htoks, tokensMatchStart_lit] at hmatch
    exact hmatch
  have htake : (text.toList.drop j).take p.pattern.toList.length = p.pattern.toList := by
    have := (List.prefix_iff_eq_take).mp (List.isPrefixOf_iff_prefix.mp hpfx)
    exact this.symm
  -- the fold reaches p and appends the found match
  set acc₁ := l₁.foldl (matchTextStep text.toList "")
    { all_matches := [], blacklist_matches := [], whitelist_matches := [],
      texts_processed := 1, patterns_checked := (l₁ ++ p :: l₂).length } with hacc₁
  have hstep : (matchTextStep text.toList "" acc₁ p).all_matches =
      acc₁.all_matches ++ [foundMatch text.toList p j (compiledTokens p).length] := by
    unfold matchTextStep
    rw [if_neg (by simp), hsearch]
  have hm_mem : foundMatch text.toList p j (compiledTokens p).length ∈
      (match_text (l₁ ++ p :: l₂) text "").all_matches := by
    unfold match_text
    rw [List.foldl_append, List.foldl_cons]
    obtain ⟨tail, htail⟩ :=
      matchText_foldl_mono text.toList "" l₂ (matchTextStep text.toList "" acc₁ p)
    rw [htail, hstep]
    simp
  refine ⟨foundMatch text.toList p j (compiledTokens p).length, hm_mem, rfl, ?_, ?_⟩
  · show String.mk ((text.toList.drop j).take (compiledTokens p).length) = p.pattern
    rw [hlen, htake]
    rfl
  · show String.mk ((text.toList.drop j).take
        ((j + (compiledTokens p).length) - j)) = p.pattern
    rw [Nat.add_sub_cancel_left, hlen, htake]
    rfl

/-- Witness for C8 (amended): the metacharacter-free exact pattern
`abc` in the text `zzabcq`. -/
theorem exact_pattern_match_amended_witness :
    ∃ m ∈ (match_text abcDB "zzabcq" "").all_matches,
      m.pattern_id = abcPattern.id ∧ m.matched_text = abcPattern.pattern ∧
      String.mk (("zzabcq".toList.drop m.start_offset).take
        (m.end_offset - m.start_offset)) = abcPattern.pattern :=
  exact_pattern_match_amended abcDB abcPattern "zzabcq"
    (by decide) (by decide) (by decide) (by decide) (by decide)

/-- C3 counterexample: starting from the active configuration loaded
from a fully valid document, a reload whose server section is valid
(with a changed host) but whose features section fails validation
returns an error — yet `get_server_config` afterwards observes the
**new** host: the server section was replaced while the feature
section's validation failed. -/
theorem reload_partial_application_counterexample :
    (SystemConfig.load_from_toml zeroDefaults zeroState docValid).1.isOk = true ∧
    (SystemConfig.reload zeroDefaults loadedState (some docPartial)).1.isOk = false ∧
    SystemConfig.get_server_config
        (SystemConfig.reload zeroDefaults loadedState (some docPartial)).2 ≠
      SystemConfig.get_server_config loadedState ∧
    SystemConfig.get_feature_config
        (SystemConfig.reload zeroDefaults loadedState (some docPartial)).2 =
      SystemConfig.get_feature_config loadedState := by
  decide

/-- Helper: reloading a successfully parsed document runs
`load_from_toml` on the live state. -/
theorem reload_some_eq (d : SystemConfigDefaults) (st : SystemConfigState) (t : TomlTable) :
    SystemConfig.reload d st (some t) = SystemConfig.load_from_toml d st t :=
  rfl

/-- C3 (amended): a failed reload returns an error, but retention is
only partial: sections are replaced in load order (server, feature,
logging, monitoring), so on failure every section **from the failing
one onward** keeps its pre-reload value — the monitoring section is
never replaced by a failed reload, a parse failure touches nothing, and
a failure already in the server section leaves the whole configuration
untouched; sections **before** the failing one may however already have
been replaced (see the counterexample). -/
theorem reload_failure_retention_amended :
    ∀ (d : SystemConfigDefaults) (st : SystemConfigState) (doc : Option TomlTable),
      ((SystemConfig.reload d st doc).1.isOk = false →
        SystemConfig.get_monitoring_config (SystemConfig.reload d st doc).2 =
          SystemConfig.get_monitoring_config st) ∧
      (SystemConfig.reload d st none).2 = st ∧
      (∀ t, doc = some t → (ServerConfig.from_toml d.server t).isOk = false →
        (SystemConfig.reload d st doc).2 = st) := by
  intro d st doc
  refine ⟨?_, rfl, ?_⟩
  · intro herr
    cases doc with
    | none => rfl
    | some t =>
      rw [reload_some_eq] at herr ⊢
      unfold SystemConfig.load_from_toml at herr ⊢
      cases hs : ServerConfig.from_toml d.server t with
      | error e => rfl
      | ok sc =>
        rw [hs] at herr
        cases hf : FeatureConfig.from_toml d.feature t with
        | error e => rfl
        | ok fc =>
          rw [hf] at herr
          cases hl : LoggingConfig.from_toml d.logging t with
          | error e => rfl
          | ok lc =>
            rw [hl] at herr
            cases hm : MonitoringConfig.from_toml d.monitoring t with
            | error e => rfl
            | ok mc =>
              rw [hm] at herr
              simp [Except.isOk, Except.toBool] at herr
  · intro t hdoc hfail
    subst hdoc
    rw [reload_some_eq]
    unfold SystemConfig.load_from_toml
    cases hs : ServerConfig.from_toml d.server t with
    | error e => rfl
    | ok sc => rw [hs] at hfail; simp [Except.isOk, Except.toBool] at hfail

/-- Witness for C3 (amended): the monitoring section survives the
failed `docPartial` reload, and a reload from an empty document (whose
server section fails validation) leaves the whole state unchanged. -/
theorem reload_failure_retention_amended_witness :
    SystemConfig.get_monitoring_config
        (SystemConfig.reload zeroDefaults loadedState (some docPartial)).2 =
      SystemConfig.get_monitoring_config loadedState ∧
    (SystemConfig.reload zeroDefaults loadedState (some [])).2 = loadedState :=
  ⟨(reload_failure_retention_amended zeroDefaults loadedState (some docPartial)).1
      (by decide),
   (reload_failure_retention_amended zeroDefaults loadedState (some [])).2.2 []
      rfl (by decide)⟩

end DMP
